import Mathlib

/-!
Shallow embedding of `src/app.py` (EcoHarvest crop-yield predictor).

The application has two parts:
* `get_model_data` (lines 128-187): loads a pickled `(model, encoder)`
  artifact from `crop_yield_model.pkl` if present, otherwise downloads the
  dataset, drops rows with missing values, label-encodes the `'Temperatue'`
  column when it exists, fits a linear regression on six feature columns,
  pickles the result and returns it; any exception in the training block
  yields `None` after an error message.
* the module-level prediction block (lines 189-276): when a model is
  available it shows the input form and, on button press, encodes the
  temperature input through the stored encoder (falling back to code 0 on
  any exception) and predicts from the six-feature row.

Numeric cells are modelled as `ℚ`.  The `'Temperatue'` cells are modelled as
the strings produced by the `.astype(str)` conversion at line 164.  The
sklearn `LinearRegression.fit` call is an external library function; only
its determinism matters to the claims, so it is a parameter `fitLR` of the
training path (returning `none` when fitting raises).  `pickle` is modelled
by an explicit token-stream codec with a proved round trip.
-/

namespace CropApp

/-- sklearn `LabelEncoder`: `classes = none` models an encoder that was
constructed but never fitted (`classes_` attribute absent). -/
structure LabelEncoder where
  classes : Option (List String)
deriving DecidableEq

/-- Position of `s` in `cs` (sklearn looks labels up in the sorted
`classes_` array; absence raises, modelled as `none`). -/
def idxOf : List String → String → Option Nat
  | [], _ => none
  | c :: cs, s => if c = s then some 0 else (idxOf cs s).map (· + 1)

/-- Lexicographic comparison of strings by character code, the order
`np.unique` sorts by. -/
def charListLe : List Char → List Char → Bool
  | [], _ => true
  | _ :: _, [] => false
  | a :: as, b :: bs =>
    if a.toNat < b.toNat then true
    else if b.toNat < a.toNat then false
    else charListLe as bs

def strLe (a b : String) : Bool := charListLe a.data b.data

def insortStr (s : String) : List String → List String
  | [] => [s]
  | c :: cs => if strLe s c then s :: c :: cs else c :: insortStr s cs

def sortStrs (l : List String) : List String := l.foldr insortStr []

/-- Sorted distinct values, i.e. `np.unique`, as used by `LabelEncoder.fit`. -/
def sortedUniq (ys : List String) : List String :=
  sortStrs ys.dedup

/-- Fitting, `LabelEncoder.fit`: record the sorted distinct labels. -/
def LabelEncoder.fit (ys : List String) : LabelEncoder :=
  ⟨some (sortedUniq ys)⟩

/-- Lookup, `LabelEncoder.transform`, on one label: `none` models the exception
raised for an unfitted encoder or an unseen label. -/
def LabelEncoder.transform (le : LabelEncoder) (s : String) : Option Nat :=
  match le.classes with
  | none => none
  | some cs => idxOf cs s

/-- One row of the spreadsheet, `none` marking a missing cell.  The
`'Temperatue'` cell is kept as its `astype(str)` string form. -/
structure RawRow where
  rainFall : Option ℚ
  fertilizer : Option ℚ
  temperatue : Option String
  nitrogen : Option ℚ
  phosphorus : Option ℚ
  potassium : Option ℚ
  yeild : Option ℚ
deriving DecidableEq

/-- Whether `dropna` discards the row: some cell of an existing column is
missing.  The `'Temperatue'` cell counts only when that column exists. -/
def RawRow.hasMissing (hasTempCol : Bool) (r : RawRow) : Bool :=
  r.rainFall.isNone || r.fertilizer.isNone ||
  (hasTempCol && r.temperatue.isNone) ||
  r.nitrogen.isNone || r.phosphorus.isNone ||
  r.potassium.isNone || r.yeild.isNone

/-- The frame read by `pd.read_excel`: its rows plus whether the column
named `'Temperatue'` is among its columns. -/
structure DataFrame where
  hasTemperatueCol : Bool
  rows : List RawRow
deriving DecidableEq

/-- Row cleaning, `cy.dropna()` (line 158). -/
def DataFrame.dropna (df : DataFrame) : DataFrame :=
  ⟨df.hasTemperatueCol,
   df.rows.filter (fun r => !(r.hasMissing df.hasTemperatueCol))⟩

/-- A fitted `LinearRegression`: coefficients and intercept. -/
structure LinModel where
  coef : List ℚ
  intercept : ℚ
deriving DecidableEq

def dotProd : List ℚ → List ℚ → ℚ
  | a :: as, b :: bs => a * b + dotProd as bs
  | _, _ => 0

/-- Prediction for a single feature row. -/
def LinModel.predictRow (m : LinModel) (x : List ℚ) : ℚ :=
  dotProd m.coef x + m.intercept

/-- Batch prediction, `model.predict` (line 260 passes a 1-row batch). -/
def LinModel.predict (m : LinModel) (xs : List (List ℚ)) : List ℚ :=
  xs.map m.predictRow

/-- The dict `{"model": LR, "encoder_temp": LE}` pickled at line 176.
`encoder_temp` is an `Option` because line 199 reads it with `.get`, which
yields `None` when the key is absent. -/
structure Artifact where
  model : LinModel
  encoder_temp : Option LabelEncoder
deriving DecidableEq

/-! ### Pickle codec

`pickle` is an opaque byte format; it is modelled as a flat token stream
with length-prefixed lists, with a proved load-after-dump round trip. -/

inductive Tok where
  | q (x : ℚ)
  | s (x : String)
  | n (x : Nat)
deriving DecidableEq

def dumpQs (xs : List ℚ) : List Tok := Tok.n xs.length :: xs.map Tok.q

def dumpStrs (xs : List String) : List Tok := Tok.n xs.length :: xs.map Tok.s

/-- Serialization, `pickle.dump`, of the artifact dict (line 178). -/
def pickleDump (a : Artifact) : List Tok :=
  dumpQs a.model.coef ++ (Tok.q a.model.intercept ::
    (match a.encoder_temp with
     | none => [Tok.n 0]
     | some le =>
       Tok.n 1 :: (match le.classes with
         | none => [Tok.n 0]
         | some cs => Tok.n 1 :: dumpStrs cs)))

def readQs : Nat → List Tok → Option (List ℚ × List Tok)
  | 0, ts => some ([], ts)
  | k + 1, Tok.q x :: ts =>
    match readQs k ts with
    | some (xs, rest) => some (x :: xs, rest)
    | none => none
  | _ + 1, _ => none

def readStrs : Nat → List Tok → Option (List String × List Tok)
  | 0, ts => some ([], ts)
  | k + 1, Tok.s x :: ts =>
    match readStrs k ts with
    | some (xs, rest) => some (x :: xs, rest)
    | none => none
  | _ + 1, _ => none

/-- Deserialization, `pickle.load` (line 135): `none` models an exception on a stream this
codec never produced (uncaught in the script, so no model either way). -/
def pickleLoad (ts : List Tok) : Option Artifact :=
  match ts with
  | Tok.n k :: ts1 =>
    match readQs k ts1 with
    | some (coef, Tok.q b :: ts2) =>
      match ts2 with
      | [Tok.n 0] => some ⟨⟨coef, b⟩, none⟩
      | Tok.n 1 :: ts3 =>
        match ts3 with
        | [Tok.n 0] => some ⟨⟨coef, b⟩, some ⟨none⟩⟩
        | Tok.n 1 :: Tok.n m :: ts4 =>
          match readStrs m ts4 with
          | some (cs, []) => some ⟨⟨coef, b⟩, some ⟨some cs⟩⟩
          | _ => none
        | _ => none
      | _ => none
    | _ => none
  | _ => none

/-! ### Model provider (`get_model_data`, lines 128-187) -/

/-- The `LE.fit_transform` step, lines 161-165: the encoder fitted on the
string forms of the cleaned `'Temperatue'` column.  The `getD ""` default
is never consulted on rows that survived `dropna` of a frame that has the
column. -/
def fitEncoder (cy : DataFrame) : LabelEncoder :=
  LabelEncoder.fit (cy.rows.map (fun r => r.temperatue.getD ""))

/-- Feature selection of one row in the training column order of line 169:
`["Rain Fall (mm)", "Fertilizer", "Temperatue", "Nitrogen (N)",
"Phosphorus (P)", "Potassium (K)"]`, the `'Temperatue'` column already
replaced by its integer codes.  The `getD` defaults are never consulted on
rows that survived `dropna`. -/
def selectRow (LE : LabelEncoder) (r : RawRow) : List ℚ :=
  [r.rainFall.getD 0, r.fertilizer.getD 0,
   (((LE.transform (r.temperatue.getD "")).getD 0 : Nat) : ℚ),
   r.nitrogen.getD 0, r.phosphorus.getD 0, r.potassium.getD 0]

/-- The matrix `ind` of line 169. -/
def trainInd (cy : DataFrame) : List (List ℚ) :=
  cy.rows.map (selectRow (fitEncoder cy))

/-- The target `dep = cy["Yeild (Q/acre)"]` of line 170. -/
def trainDep (cy : DataFrame) : List ℚ :=
  cy.rows.map (fun r => r.yeild.getD 0)

/-- The `try` block of lines 142-183 after the artifact was found missing.
`download` is the outcome of the kagglehub download, file location and
`read_excel` steps (`none` = exception).  `fitLR` is sklearn
`LinearRegression.fit` (`none` = exception while fitting).  When the
`'Temperatue'` column is absent the `if` at line 163 skips encoding and the
column selection at line 169 raises `KeyError`, landing in the `except`
arm: result `none`. -/
def trainPath (fitLR : List (List ℚ) → List ℚ → Option LinModel)
    (download : Option DataFrame) : Option Artifact :=
  match download with
  | none => none
  | some cy0 =>
    let cy := cy0.dropna
    if cy.hasTemperatueCol then
      match fitLR (trainInd cy) (trainDep cy) with
      | some LR => some ⟨LR, some (fitEncoder cy)⟩
      | none => none
    else none

/-- Process-start state: contents of `crop_yield_model.pkl` (`none` when
the file is absent) and the dataset the download step would produce. -/
structure World where
  file : Option (List Tok)
  download : Option DataFrame

/-- What `get_model_data` leaves behind: its return value, the file
contents afterwards, and whether `st.error("Initialization Error: ...")`
ran (line 186). -/
structure ProviderResult where
  res : Option Artifact
  fileAfter : Option (List Tok)
  errorShown : Bool
deriving DecidableEq

/-- The provider `get_model_data` (lines 129-187).  If the file exists it is unpickled
and returned directly; otherwise the training path runs and, on success
only, its artifact is pickled to the file. -/
def get_model_data (fitLR : List (List ℚ) → List ℚ → Option LinModel)
    (w : World) : ProviderResult :=
  match w.file with
  | some bytes => ⟨pickleLoad bytes, some bytes, false⟩
  | none =>
    match trainPath fitLR w.download with
    | some a => ⟨some a, some (pickleDump a), false⟩
    | none => ⟨none, none, true⟩

/-! ### Prediction block (lines 189-276) -/

/-- The form inputs: `temp_input` is the integer `number_input` of
line 213, the rest are floats. -/
structure Inputs where
  rain : ℚ
  temp_input : ℤ
  fertilizer : ℚ
  nitrogen : ℚ
  phosphorus : ℚ
  potassium : ℚ
deriving DecidableEq

/-- Lines 246-255.  `if temp_encoder:` is a Python truthiness test: `None`
(key absent) is falsy, while any `LabelEncoder` object — fitted or not —
is truthy, so the `try` arm runs and any exception (unseen label, or
unfitted encoder) hits the bare `except` and yields code 0.  The raw
temperature passes through only in the `else` arm. -/
def final_temp (temp_encoder : Option LabelEncoder) (temp_input : ℤ) : ℚ :=
  match temp_encoder with
  | some le =>
    match le.transform (toString temp_input) with
    | some code => (code : ℚ)
    | none => 0
  | none => (temp_input : ℚ)

/-- The single feature row assembled at line 259:
`[rain, fertilizer, final_temp, nitrogen, phosphorus, potassium]`. -/
def featureVector (temp_encoder : Option LabelEncoder) (i : Inputs) : List ℚ :=
  [i.rain, i.fertilizer, final_temp temp_encoder i.temp_input,
   i.nitrogen, i.phosphorus, i.potassium]

/-- Lines 258-261: predict on the one-row batch and take element 0.  The
`headD` default is never consulted: the batch has one row. -/
def predictionBlock (model : LinModel) (temp_encoder : Option LabelEncoder)
    (i : Inputs) : ℚ :=
  (model.predict [featureVector temp_encoder i]).headD 0

/-- Observable outcome of one script run. -/
structure AppRun where
  dataRes : Option Artifact
  fileAfter : Option (List Tok)
  errorShown : Bool
  formShown : Bool
  yieldShown : Option ℚ
  balloons : Bool
deriving DecidableEq

/-- The module level of the script: `data = get_model_data()`; the `if
data:` guard (line 197) shows the form and runs the prediction block only
when a model is available and the button was pressed.  `st.balloons` fires
when the shown yield exceeds 10 (line 272). -/
def runApp (fitLR : List (List ℚ) → List ℚ → Option LinModel)
    (w : World) (i : Inputs) (predict_btn : Bool) : AppRun :=
  let r := get_model_data fitLR w
  match r.res with
  | none => ⟨none, r.fileAfter, r.errorShown, false, none, false⟩
  | some data =>
    let model := data.model
    let temp_encoder := data.encoder_temp
    if predict_btn then
      let y := predictionBlock model temp_encoder i
      ⟨some data, r.fileAfter, r.errorShown, true, some y, decide (10 < y)⟩
    else
      ⟨some data, r.fileAfter, r.errorShown, true, none, false⟩

/-! ### Concrete sample values used by witnesses -/

/-- A fully populated row, temperature already in string form. -/
def sampleRow : RawRow :=
  ⟨some 1200, some 75, some "28", some 80, some 24, some 20, some 12⟩

/-- The default form values of the script. -/
def sampleInputs : Inputs := ⟨1200, 28, 75, 80, 24, 20⟩

/-- A stand-in for sklearn fitting that succeeds on any data. -/
def fitConst : List (List ℚ) → List ℚ → Option LinModel :=
  fun _ _ => some ⟨[1, 1, 1, 1, 1, 1], 0⟩

/-- A row whose `Fertilizer` cell is missing. -/
def badRow : RawRow :=
  ⟨some 1, none, some "28", some 2, some 3, some 4, some 5⟩

/-! ### Helper lemmas -/

theorem idxOf_eq_none_of_not_mem {cs : List String} {s : String} (h : s ∉ cs) :
    idxOf cs s = none := by
  induction cs with
  | nil => rfl
  | cons c cs ih =>
    simp only [List.mem_cons, not_or] at h
    have hcs : ¬c = s := fun hc => h.1 hc.symm
    simp [idxOf, hcs, ih h.2]

theorem mem_insortStr {x s : String} {l : List String} :
    s ∈ insortStr x l ↔ s = x ∨ s ∈ l := by
  induction l with
  | nil => simp [insortStr]
  | cons c cs ih =>
    by_cases hle : strLe x c = true
    · simp [insortStr, hle]
    · simp only [insortStr, if_neg hle, List.mem_cons, ih]
      tauto

theorem mem_sortStrs {l : List String} {s : String} :
    s ∈ sortStrs l ↔ s ∈ l := by
  induction l with
  | nil => simp [sortStrs]
  | cons c cs ih =>
    simp only [sortStrs, List.foldr_cons, mem_insortStr, List.mem_cons]
    rw [show cs.foldr insortStr [] = sortStrs cs from rfl, ih]

theorem mem_sortedUniq {ys : List String} {s : String} :
    s ∈ sortedUniq ys ↔ s ∈ ys := by
  rw [sortedUniq, mem_sortStrs, List.mem_dedup]

theorem transform_fit_eq_none {ys : List String} {s : String} (h : s ∉ ys) :
    (LabelEncoder.fit ys).transform s = none := by
  simp only [LabelEncoder.fit, LabelEncoder.transform]
  exact idxOf_eq_none_of_not_mem (fun hm => h (mem_sortedUniq.mp hm))

theorem readQs_dump (xs : List ℚ) (r : List Tok) :
    readQs xs.length (xs.map Tok.q ++ r) = some (xs, r) := by
  induction xs with
  | nil => rfl
  | cons x xs ih => simp [readQs, ih]

theorem readStrs_dump (xs : List String) (r : List Tok) :
    readStrs xs.length (xs.map Tok.s ++ r) = some (xs, r) := by
  induction xs with
  | nil => rfl
  | cons x xs ih => simp [readStrs, ih]

theorem pickleLoad_pickleDump (a : Artifact) :
    pickleLoad (pickleDump a) = some a := by
  obtain ⟨⟨coef, b⟩, enc⟩ := a
  match enc with
  | none =>
    simp [pickleDump, dumpQs, pickleLoad, List.cons_append, List.append_assoc,
      readQs_dump]
  | some ⟨none⟩ =>
    simp [pickleDump, dumpQs, pickleLoad, List.cons_append, List.append_assoc,
      readQs_dump]
  | some ⟨some cs⟩ =>
    have hs : readStrs cs.length (cs.map Tok.s) = some (cs, []) := by
      have := readStrs_dump cs []
      simpa using this
    simp [pickleDump, dumpQs, dumpStrs, pickleLoad, List.cons_append,
      List.append_assoc, readQs_dump, hs]

/-! ### Claims C1-C5 -/

/-- Claim C1, counterexample: with a loaded artifact whose encoder object
was never fitted, the third feature is not the raw temperature input (here
temperature 5): the truthy encoder object sends the code into the `try`
arm, whose failure yields the fallback 0. -/
theorem C1_counterexample :
    (featureVector (some ⟨none⟩) ⟨1200, 5, 75, 80, 24, 20⟩).get? 2
      ≠ some (5 : ℚ) := by
  decide

/-- Claim C1 as amended: when the loaded artifact holds an encoder object
that was never fitted, the third feature is the fallback code 0, not the
raw input; the raw temperature passes through unencoded only when the
artifact has no encoder entry at all (`data.get` returned `None`). -/
theorem C1_amended_unfitted_encoder_yields_zero (i : Inputs) :
    featureVector (some ⟨none⟩) i
        = [i.rain, i.fertilizer, 0, i.nitrogen, i.phosphorus, i.potassium] ∧
      featureVector none i
        = [i.rain, i.fertilizer, (i.temp_input : ℚ),
           i.nitrogen, i.phosphorus, i.potassium] :=
  ⟨rfl, rfl⟩

/-- Claim C2, counterexample: with the `'Temperatue'` column absent from a
well-formed one-row dataset and a fitting function that succeeds on any
data, first-time setup still produces no fitted model. -/
theorem C2_counterexample :
    trainPath fitConst (some ⟨false, [sampleRow]⟩) = none := by
  rfl

/-- Claim C2 as amended: if the expected temperature column name
(`'Temperatue'`) is absent from the loaded dataset, encoding is skipped but
training does not proceed: selecting the feature columns fails, the
exception path is taken, and no fitted model is produced. -/
theorem C2_amended_missing_column_trains_no_model
    (fitLR : List (List ℚ) → List ℚ → Option LinModel) (df : DataFrame)
    (h : df.hasTemperatueCol = false) :
    trainPath fitLR (some df) = none := by
  simp [trainPath, DataFrame.dropna, h]

/-- Claim C2 amended, witness. -/
theorem C2_witness : trainPath fitConst (some ⟨false, []⟩) = none :=
  C2_amended_missing_column_trains_no_model fitConst ⟨false, []⟩ rfl

/-- Claim C3: for every temperature input whose string form is absent from
the fitted encoder's training label set, the inference path uses code 0 in
the assembled feature vector (and, being total, raises no error). -/
theorem C3_unseen_label_code_zero (ys : List String) (i : Inputs)
    (h : toString i.temp_input ∉ ys) :
    featureVector (some (LabelEncoder.fit ys)) i
      = [i.rain, i.fertilizer, 0, i.nitrogen, i.phosphorus, i.potassium] := by
  simp [featureVector, final_temp, transform_fit_eq_none h]

/-- Claim C3, witness: temperature 28 against an encoder trained on labels
20 and 25. -/
theorem C3_witness :
    featureVector (some (LabelEncoder.fit ["20", "25"])) sampleInputs
      = [1200, 75, 0, 80, 24, 20] :=
  C3_unseen_label_code_zero ["20", "25"] sampleInputs (by decide)

/-- Claim C4: the six-element feature vector assembled at inference is in
exactly the training selection order `[rainfall, fertilizer,
temperature_code, nitrogen, phosphorus, potassium]`: whenever the
inference inputs carry the same values as a training row's cells and the
encoder assigns the same temperature code, the two vectors coincide
slot for slot. -/
theorem C4_feature_order_matches
    (LE : LabelEncoder) (r : RawRow) (i : Inputs) (c : Nat)
    (h1 : r.rainFall = some i.rain)
    (h2 : r.fertilizer = some i.fertilizer)
    (h3 : LE.transform (r.temperatue.getD "") = some c)
    (h4 : final_temp (some LE) i.temp_input = (c : ℚ))
    (h5 : r.nitrogen = some i.nitrogen)
    (h6 : r.phosphorus = some i.phosphorus)
    (h7 : r.potassium = some i.potassium) :
    selectRow LE r = featureVector (some LE) i := by
  simp [selectRow, featureVector, h1, h2, h3, h4, h5, h6, h7]

/-- Claim C4, witness: the default form values against the one-row sample
dataset. -/
theorem C4_witness :
    selectRow (LabelEncoder.fit ["28"]) sampleRow
      = featureVector (some (LabelEncoder.fit ["28"])) sampleInputs :=
  C4_feature_order_matches (LabelEncoder.fit ["28"]) sampleRow sampleInputs 0
    rfl rfl (by decide) (by decide) rfl rfl rfl

/-- Claim C5: on any failure during first-time setup — download failure,
missing `'Temperatue'` column, or a fitting error — the provider shows the
initialization error and returns no model, and the run reaches neither the
input form nor the prediction logic, whatever the form inputs and button
state. -/
theorem C5_init_failure_no_inference
    (fitLR : List (List ℚ) → List ℚ → Option LinModel) (w : World)
    (i : Inputs) (predict_btn : Bool)
    (hfile : w.file = none)
    (hfail : w.download = none
      ∨ (∃ df, w.download = some df ∧ df.hasTemperatueCol = false)
      ∨ (∃ df, w.download = some df ∧
          fitLR (trainInd df.dropna) (trainDep df.dropna) = none)) :
    (runApp fitLR w i predict_btn).dataRes = none ∧
    (runApp fitLR w i predict_btn).errorShown = true ∧
    (runApp fitLR w i predict_btn).formShown = false ∧
    (runApp fitLR w i predict_btn).yieldShown = none := by
  have hnone : trainPath fitLR w.download = none := by
    rcases hfail with h | ⟨df, hdf, hcol⟩ | ⟨df, hdf, hfit⟩
    · rw [h]; rfl
    · rw [hdf]; simp [trainPath, DataFrame.dropna, hcol]
    · rw [hdf]
      simp only [trainPath]
      by_cases hcol : df.dropna.hasTemperatueCol
      · simp [hcol, hfit]
      · simp [hcol]
  simp [runApp, get_model_data, hfile, hnone]

/-- Claim C5, witness: a failed download with the file absent. -/
theorem C5_witness :
    (runApp fitConst ⟨none, none⟩ sampleInputs true).dataRes = none ∧
    (runApp fitConst ⟨none, none⟩ sampleInputs true).errorShown = true ∧
    (runApp fitConst ⟨none, none⟩ sampleInputs true).formShown = false ∧
    (runApp fitConst ⟨none, none⟩ sampleInputs true).yieldShown = none :=
  C5_init_failure_no_inference fitConst ⟨none, none⟩ sampleInputs true rfl
    (Or.inl rfl)

/-! ### Claims C6-C10 -/

/-- Claim C6: when a persisted artifact exists at the fixed filename, the
provider deserializes and returns its contents directly — for any artifact
whatsoever (no internal-consistency validation) and independently of the
dataset and fitting function (the training path is not executed), leaving
the file unchanged. -/
theorem C6_artifact_loaded_directly
    (fitLR : List (List ℚ) → List ℚ → Option LinModel) (w : World)
    (a : Artifact)
    (h : w.file = some (pickleDump a)) :
    get_model_data fitLR w = ⟨some a, some (pickleDump a), false⟩ := by
  simp [get_model_data, h, pickleLoad_pickleDump]

/-- Claim C6, witness: an internally inconsistent artifact — no
coefficients at all and no encoder — is returned as-is, with training data
available that is never touched. -/
theorem C6_witness :
    get_model_data fitConst
        ⟨some (pickleDump ⟨⟨[], 0⟩, none⟩), some ⟨true, [sampleRow]⟩⟩
      = ⟨some ⟨⟨[], 0⟩, none⟩, some (pickleDump ⟨⟨[], 0⟩, none⟩), false⟩ :=
  C6_artifact_loaded_directly fitConst _ ⟨⟨[], 0⟩, none⟩ rfl

/-- Claim C7: persisting a `(model, encoder)` pair and reloading it yields
a pair whose predictions are identical to those of the pre-persistence
pair on every input. -/
theorem C7_persist_reload_same_predictions (a : Artifact) :
    ∃ a2, pickleLoad (pickleDump a) = some a2 ∧
      ∀ i : Inputs,
        predictionBlock a2.model a2.encoder_temp i
          = predictionBlock a.model a.encoder_temp i :=
  ⟨a, pickleLoad_pickleDump a, fun _ => rfl⟩

/-- Claim C8: a training row with a missing value in any relevant column
is dropped before encoding and fitting, so injecting it anywhere in the
dataset leaves the whole training outcome — encoder and fitted model —
unchanged, for every fitting function. -/
theorem C8_missing_row_no_influence
    (fitLR : List (List ℚ) → List ℚ → Option LinModel)
    (hasTemp : Bool) (pre post : List RawRow) (bad : RawRow)
    (h : bad.hasMissing hasTemp = true) :
    trainPath fitLR (some ⟨hasTemp, pre ++ bad :: post⟩)
      = trainPath fitLR (some ⟨hasTemp, pre ++ post⟩) := by
  have hdrop : DataFrame.dropna ⟨hasTemp, pre ++ bad :: post⟩
      = DataFrame.dropna ⟨hasTemp, pre ++ post⟩ := by
    simp [DataFrame.dropna, List.filter_append, List.filter_cons, h]
  simp only [trainPath, hdrop]

/-- Claim C8, witness: a row with a missing `Fertilizer` cell injected
after the sample row. -/
theorem C8_witness :
    trainPath fitConst (some ⟨true, [sampleRow] ++ badRow :: []⟩)
      = trainPath fitConst (some ⟨true, [sampleRow] ++ []⟩) :=
  C8_missing_row_no_influence fitConst true [sampleRow] [] badRow rfl

/-- Every artifact the training path produces carries an encoder that was
actually fitted (its classes list exists). -/
theorem trainPath_encoder_fitted
    (fitLR : List (List ℚ) → List ℚ → Option LinModel)
    (dl : Option DataFrame) (a : Artifact)
    (h : trainPath fitLR dl = some a) :
    ∃ cs, a.encoder_temp = some ⟨some cs⟩ := by
  match dl with
  | none => simp [trainPath] at h
  | some cy0 =>
    rw [show trainPath fitLR (some cy0)
        = (if cy0.dropna.hasTemperatueCol then
            match fitLR (trainInd cy0.dropna) (trainDep cy0.dropna) with
            | some LR => some ⟨LR, some (fitEncoder cy0.dropna)⟩
            | none => none
          else none) from rfl] at h
    by_cases hcol : cy0.dropna.hasTemperatueCol
    · rw [if_pos hcol] at h
      cases hfit : fitLR (trainInd cy0.dropna) (trainDep cy0.dropna) with
      | none => rw [hfit] at h; exact absurd h (by simp)
      | some LR =>
        rw [hfit] at h
        cases h
        exact ⟨_, rfl⟩
    · rw [if_neg hcol] at h
      exact absurd h (by simp)

/-- Claim C9: every artifact file this program persists holds an encoder
that was actually fitted on the temperature column: when the file was
absent and the provider wrote one, the written bytes are the dump of an
artifact whose encoder carries a classes list. -/
theorem C9_persisted_encoder_fitted
    (fitLR : List (List ℚ) → List ℚ → Option LinModel) (w : World)
    (bytes : List Tok)
    (hfile : w.file = none)
    (hw : (get_model_data fitLR w).fileAfter = some bytes) :
    ∃ a cs, bytes = pickleDump a ∧ a.encoder_temp = some ⟨some cs⟩ := by
  cases htr : trainPath fitLR w.download with
  | none =>
    have hg : get_model_data fitLR w = ⟨none, none, true⟩ := by
      simp [get_model_data, hfile, htr]
    rw [hg] at hw
    exact absurd hw (by simp)
  | some a =>
    have hg : get_model_data fitLR w = ⟨some a, some (pickleDump a), false⟩ := by
      simp [get_model_data, hfile, htr]
    rw [hg] at hw
    obtain ⟨cs, hcs⟩ := trainPath_encoder_fitted fitLR w.download a htr
    refine ⟨a, cs, ?_, hcs⟩
    have : some (pickleDump a) = some bytes := hw
    exact (Option.some.inj this).symm

/-- Claim C9, witness: a successful first-time setup on the one-row sample
dataset writes the dump of an artifact with a fitted encoder. -/
theorem C9_witness :
    ∃ a cs,
      pickleDump ⟨⟨[1, 1, 1, 1, 1, 1], 0⟩, some ⟨some ["28"]⟩⟩ = pickleDump a
        ∧ a.encoder_temp = some ⟨some cs⟩ :=
  C9_persisted_encoder_fitted fitConst ⟨none, some ⟨true, [sampleRow]⟩⟩
    (pickleDump ⟨⟨[1, 1, 1, 1, 1, 1], 0⟩, some ⟨some ["28"]⟩⟩) rfl (by decide)

/-- Claim C10: a failed first-time setup writes no artifact file and
returns no model, and a later fresh start on the still-empty filesystem
re-attempts the full acquisition-and-training path (its outcome is exactly
the training path's outcome, not a load). -/
theorem C10_failed_init_leaves_no_artifact
    (fitLR fitLR2 : List (List ℚ) → List ℚ → Option LinModel) (w : World)
    (dl2 : Option DataFrame)
    (hfile : w.file = none)
    (hfail : trainPath fitLR w.download = none) :
    (get_model_data fitLR w).fileAfter = none ∧
    (get_model_data fitLR w).res = none ∧
    get_model_data fitLR2 ⟨(get_model_data fitLR w).fileAfter, dl2⟩
      = ⟨trainPath fitLR2 dl2, Option.map pickleDump (trainPath fitLR2 dl2),
         (trainPath fitLR2 dl2).isNone⟩ := by
  have hg : get_model_data fitLR w = ⟨none, none, true⟩ := by
    simp [get_model_data, hfile, hfail]
  refine ⟨by rw [hg], by rw [hg], ?_⟩
  rw [hg]
  cases htr : trainPath fitLR2 dl2 with
  | none => simp [get_model_data, htr]
  | some a => simp [get_model_data, htr]

/-- Claim C10, witness: after a failed setup (no download), a retry on the
sample dataset trains from scratch. -/
theorem C10_witness :
    (get_model_data fitConst ⟨none, none⟩).fileAfter = none ∧
    (get_model_data fitConst ⟨none, none⟩).res = none ∧
    get_model_data fitConst
        ⟨(get_model_data fitConst ⟨none, none⟩).fileAfter,
         some ⟨true, [sampleRow]⟩⟩
      = ⟨trainPath fitConst (some ⟨true, [sampleRow]⟩),
         Option.map pickleDump (trainPath fitConst (some ⟨true, [sampleRow]⟩)),
         (trainPath fitConst (some ⟨true, [sampleRow]⟩)).isNone⟩ :=
  C10_failed_init_leaves_no_artifact fitConst fitConst ⟨none, none⟩
    (some ⟨true, [sampleRow]⟩) rfl rfl

end CropApp
